import Mathlib

/-!
Shallow embedding of the request-resolution and generation engine of
`src/python/nutshell.py` (class `ProductServer`), together with theorems
settling the specification claims about it.

Modelling conventions:

* The filesystem is a partial map from path strings to file contents
  (`FileMap`); a mapping to the empty string is a zero-length file
  (the generation placeholder).  Directories are not modelled:
  `ensure_output_dir` (lines 400-408) only creates directories with
  `os.makedirs(..., exist_ok)` and no observable behaviour in the
  claims depends on them, so it is the identity here.
* External executables (the generator and the input-listing script) are
  an oracle `Server.exec`: given the script path, the environment and
  the current filesystem it returns the exit code and captured streams
  of the child plus the filesystem after the child ran.  Every process
  invocation (`subprocess.Popen`) is recorded in `World.calls`.
* Exceptions escaping the engine are modelled with `Except String`, the
  error value naming the Python exception class.  Unbounded recursion is
  modelled with fuel; exhausting the fuel corresponds to the Python
  interpreter exceeding its recursion limit (`RecursionError`).
* `nutproduct.ProductInfo` (descriptor parsing, filename and parameter
  derivation) is imported by the source but is not part of `src/`;
  it is abstracted as `Server.mkReq`, mapping a descriptor string to
  the paths and parameter environment from which `ProductRequest`
  objects are built (`ProductRequest.__init__`, lines 239-296).
  The two helpers of module `nutils` that the engine calls and that are
  also missing from `src/` (`read_conf_text`, `symlink`) are modelled
  from the specification text and marked as such.
-/

/-- Constant `ProductServer.SHELL_GENERATOR_SCRIPT` (line 119). -/
def SHELL_GENERATOR_SCRIPT : String := "generate.sh"

/-- Constant `ProductServer.SHELL_INPUT_SCRIPT` (line 120). -/
def SHELL_INPUT_SCRIPT : String := "input.sh"

/-- The class variable `ProductServer.counter` (line 135). -/
def ProductServer.counter : Int := 0

/-- A filesystem: path strings to file contents; `none` means the path
does not exist.  The size of a file is the length of its contents. -/
def FileMap : Type := String → Option String

/-- Writing a file (`Path.write_text`). -/
def fsWrite (fs : FileMap) (p c : String) : FileMap :=
  fun q => if q = p then some c else fs q

/-- Model of `Path.unlink` on an existing file; callers check existence. -/
def fsUnlink (fs : FileMap) (p : String) : FileMap :=
  fun q => if q = p then none else fs q

/-- Model of `Path.touch` (line 574): creates a zero-length file if absent,
otherwise leaves the contents unchanged. -/
def fsTouch (fs : FileMap) (p : String) : FileMap :=
  fun q => if q = p then some ((fs p).getD "") else fs q

/-- Model of `Path.replace` (line 622): atomic rename of `src` onto `dst`. -/
def fsMove (fs : FileMap) (src dst : String) : FileMap :=
  fun q => if q = dst then fs src else if q = src then none else fs q

/-- Splitting a character list at every occurrence of a separator
(Python `str.split` with a one-character separator, which is how the
engine always calls it); the structural recursion makes the model
reduce definitionally on concrete inputs. -/
def splitOnCharList (sep : Char) : List Char → List (List Char)
  | [] => [[]]
  | c :: rest =>
      let r := splitOnCharList sep rest
      if c == sep then [] :: r
      else
        match r with
        | [] => [[c]]
        | h :: t => (c :: h) :: t

/-- Python `s.split(sep)` for a one-character separator. -/
def pySplit (sep : Char) (s : String) : List String :=
  (splitOnCharList sep s.data).map String.mk

/-- The six ASCII whitespace characters Python `str.strip` removes on
the ASCII strings relevant here. -/
def isSpaceChar (c : Char) : Bool :=
  c == ' ' || c == '\t' || c == '\n' || c == '\r' || c.toNat == 11 || c.toNat == 12

/-- Python `s.strip()`. -/
def pyStrip (s : String) : String :=
  String.mk (((s.data.dropWhile isSpaceChar).reverse.dropWhile isSpaceChar).reverse)

/-- Model of the `pathlib` `.name` of the POSIX paths the engine builds: the last
`/`-separated component (used for `OUTFILE`, line 572). -/
def baseName (p : String) : String := (pySplit '/' p).getLastD ""

/-- Model of the `pathlib` `.parent` of the POSIX paths the engine builds: the path
without its last component (used for `OUTDIR`, line 571). -/
def parentDir (p : String) : String :=
  String.intercalate "/" ((pySplit '/' p).dropLast)

/-- Python dict assignment `d[k] = v`: replaces the value of an existing
key in place, appends a new key at the end (insertion order kept). -/
def dictSet (d : List (String × String)) (k v : String) : List (String × String) :=
  if d.any (fun kv => kv.1 == k) then
    d.map (fun kv => if kv.1 == k then (k, v) else kv)
  else d ++ [(k, v)]

/-- Python `d.update(e)`: `dictSet` for each entry of `e` in order. -/
def dictUpdate (d e : List (String × String)) : List (String × String) :=
  e.foldl (fun acc kv => dictSet acc kv.1 kv.2) d

/-- Modelled from the spec: `nutils.read_conf_text` (module `nutils` is
not under `src/`), used at line 465 to parse the input-listing output.
Per section 4.4 it parses a sequence of `name=value` lines --- simple
key-value text, one entry per line, blank lines ignored --- splitting
each line at the first `=`; lines without `=` carry no entry. -/
def read_conf_text (lines : List String) : List (String × String) :=
  lines.foldl
    (fun acc line =>
      if line = "" then acc
      else
        match pySplit '=' line with
        | [] => acc
        | [_] => acc
        | k :: rest => dictSet acc k (String.intercalate "=" rest))
    []

/-- Modelled from the spec: `nutils.symlink` (module `nutils` is not
under `src/`), used at lines 629 and 634.  Per section 4.5 it creates or
replaces a symbolic reference at `link` pointing at `target`; the
reference is modelled as a file whose contents name the target. -/
def symlink (fs : FileMap) (link target : String) : FileMap :=
  fsWrite fs link ("symlink:" ++ target)

/-- Python truthiness of the captured stream values the engine tests
(`if (stdout):` and similar): `None` and the empty string are falsy. -/
def truthy : Option String → Bool
  | none => false
  | some s => !s.data.isEmpty

/-- Model of `stdout.strip().split(newline).pop()` (lines 424-425): the
last line of the stripped output.  `split` never returns an empty
list. -/
def lastLine (s : String) : String := (pySplit '\n' (pyStrip s)).getLastD ""

/-- Model of the first element of `error_info.split(space)` (line 428):
the text before the first space. -/
def firstToken (s : String) : String := (pySplit ' ' s).headD ""

/-- Digit run to a number (for the model of Python `int`). -/
def digitsToNat (l : List Char) : Nat :=
  l.foldl (fun a c => 10 * a + (c.toNat - 48)) 0

/-- No two consecutive underscores (Python integer literal rule). -/
def noConsecUnderscore : List Char → Bool
  | [] => true
  | [_] => true
  | a :: b :: rest =>
      !(a == '_' && b == '_') && noConsecUnderscore (b :: rest)

/-- A valid unsigned body for Python `int`: non-empty, starts and ends
with a digit, only digits and single separating underscores. -/
def pyDigitsOK (l : List Char) : Bool :=
  match l with
  | [] => false
  | c :: _ =>
      c.isDigit && (l.getLastD '0').isDigit &&
      l.all (fun ch => ch.isDigit || ch == '_') && noConsecUnderscore l

/-- Python `int(s)` on the ASCII strings relevant here: surrounding
whitespace stripped, optional single sign, decimal digits possibly with
single separating underscores; `none` models the `ValueError`. -/
def pyInt (s : String) : Option Int :=
  match (pyStrip s).data with
  | '+' :: rest =>
      if pyDigitsOK rest then some (Int.ofNat (digitsToNat (rest.filter Char.isDigit))) else none
  | '-' :: rest =>
      if pyDigitsOK rest then some (-(Int.ofNat (digitsToNat (rest.filter Char.isDigit)))) else none
  | rest =>
      if pyDigitsOK rest then some (Int.ofNat (digitsToNat (rest.filter Char.isDigit))) else none

/-- The values of `http.HTTPStatus` (Python 3.8): `HTTPStatus(n)` raises
`ValueError` for any other number (line 429). -/
def HTTPStatusCodes : List Int :=
  [100, 101, 102, 103,
   200, 201, 202, 203, 204, 205, 206, 207, 208, 226,
   300, 301, 302, 303, 304, 305, 307, 308,
   400, 401, 402, 403, 404, 405, 406, 407, 408, 409, 410, 411, 412,
   413, 414, 415, 416, 417, 421, 422, 423, 424, 426, 428, 429, 431, 451,
   500, 501, 502, 503, 504, 505, 506, 507, 508, 510, 511]

/-- Membership in the `http.HTTPStatus` taxonomy. -/
def isHTTPStatusCode (n : Int) : Bool := HTTPStatusCodes.contains n

/-- Model of `int` applied to the first token of the last line followed
by `HTTPStatus(status)` (lines 428-429): `some n` when the first token of the last line is an
integer naming a member of the status taxonomy, `none` when either step
raises `ValueError`. -/
def statusFromInfo (ei : String) : Option Nat :=
  match pyInt (firstToken ei) with
  | some n => if isHTTPStatusCode n then some n.toNat else none
  | none => none

/-- Exit code and captured streams of a finished child process, as
`subprocess.Popen.communicate` returns them.  `none` for a stream that
was not piped separately (or produced nothing). -/
structure ProcResult where
  returncode : Int
  stdout : Option String
  stderr : Option String
  deriving DecidableEq, Repr

/-- The fields `run_process` (lines 411-436) reads and writes on the
task object it is handed --- duck typing over `ProductRequest` and
`_InputInfo`.  `status` and `error_info` are `Option` because class
`_InputInfo` (lines 298-315) declares neither attribute; reading one
before it was assigned raises `AttributeError`. -/
structure ProcTask where
  returncode : Int
  status : Option Nat
  stdout : Option String
  stderr : Option String
  error_info : Option String
  deriving DecidableEq, Repr

/-- Embedding of `ProductServer.run_process` (lines 411-436).  On a truthy captured
stdout of a failed run, the last line is kept as `error_info` and parsed
for a self-reported status code; if parsing raises `ValueError`, the
handler (lines 430-432) first reads `task.status` --- `AttributeError`
when the task never had one --- and then sets `HTTPStatus.CONFLICT`.
Finally the captured streams are stored on the task. -/
def run_process (p : Option ProcResult) (task : ProcTask) : Except String ProcTask :=
  match p with
  | none =>
      -- lines 412-416: `if (not p)`
      .ok { task with returncode := -1, status := some 404 }
  | some p =>
      let task1 := { task with returncode := p.returncode }            -- line 419
      let step : Except String ProcTask :=
        if truthy p.stdout && (p.returncode != 0) then
          let ei := lastLine (p.stdout.getD "")                         -- lines 424-425
          let task2 := { task1 with error_info := some ei }
          match statusFromInfo ei with
          | some n => .ok { task2 with status := some n }               -- lines 428-429
          | none =>
              match task2.status with                                   -- line 431 reads task.status
              | none => .error "AttributeError"
              | some _ => .ok { task2 with status := some 409 }         -- line 432
        else .ok task1
      match step with
      | .error e => .error e
      | .ok t => .ok { t with stdout := p.stdout, stderr := p.stderr }  -- lines 435-436

/-- The status a finished process leaves on a task that carried status
`cur`: the self-reported code of the last output line on a failed run
with captured output (default `CONFLICT`), otherwise unchanged. -/
def executorStatus (p : ProcResult) (cur : Nat) : Nat :=
  if truthy p.stdout && (p.returncode != 0) then
    (statusFromInfo (lastLine (p.stdout.getD ""))).getD 409
  else cur

/-- The immutable data a `ProductRequest` is built from: the resolved
paths and the parameter environment `product_info.get_param_env()`.
Their derivation from the descriptor lives in `nutproduct` (not under
`src/`) and in `ProductServer.get_*_dir`; it is abstracted by
`Server.mkReq`. -/
structure ReqSpec where
  path : String
  path_tmp : String
  path_static : String
  path_latest : String
  generator_dir : String
  paramEnv : List (String × String)
  deriving DecidableEq, Repr

/-- Embedding of `ProductServer.ProductRequest` (lines 182-296): the request object
with its resolved paths and mutable outcome fields. -/
structure ProductRequest where
  path : String
  path_tmp : String
  path_static : String
  path_latest : String
  generator_dir : String
  generator_path : String
  paramEnv : List (String × String)
  actions : List String
  directives : List String
  product : Option String
  inputs : List (String × String)
  returncode : Int
  status : Nat
  stdout : Option String
  stderr : Option String
  error_info : Option String
  sid : Int
  deriving DecidableEq, Repr

/-- Line 241, `self.sid = (++ProductServer.counter)`: in Python `++c`
parses as `+(+c)`, two unary plus operators --- an identity expression,
not an increment.  It yields the counter and assigns nothing back;
the pair is (value of the expression, class counter afterwards). -/
def plusplus (c : Int) : Int × Int := (c, c)

/-- Embedding of `ProductRequest.__init__` (lines 239-296) given the class counter:
paths from the spec, `generator_path` as generator dir plus
`SHELL_GENERATOR_SCRIPT` (lines 268-269), fresh empty `inputs`,
`status = HTTPStatus.NO_CONTENT` (204, line 293), `returncode = -1`
(line 294).  Returns the request and the class counter afterwards. -/
def ProductRequest.init (spec : ReqSpec) (actions directives : List String)
    (counter : Int) : ProductRequest × Int :=
  let sc := plusplus counter
  ({ path := spec.path
     path_tmp := spec.path_tmp
     path_static := spec.path_static
     path_latest := spec.path_latest
     generator_dir := spec.generator_dir
     generator_path := spec.generator_dir ++ "/" ++ SHELL_GENERATOR_SCRIPT
     paramEnv := spec.paramEnv
     actions := actions
     directives := directives
     product := none
     inputs := []
     returncode := -1
     status := 204
     stdout := none
     stderr := none
     error_info := none
     sid := sc.1 }, sc.2)

/-- The `run_process` view of a `ProductRequest`: a request always has a
`status` attribute (set in `__init__`). -/
def ProductRequest.task (pr : ProductRequest) : ProcTask :=
  { returncode := pr.returncode
    status := some pr.status
    stdout := pr.stdout
    stderr := pr.stderr
    error_info := pr.error_info }

/-- Folding the fields `run_process` mutated back into the request. -/
def ProductRequest.withTask (pr : ProductRequest) (t : ProcTask) : ProductRequest :=
  { pr with
    returncode := t.returncode
    status := t.status.getD pr.status
    stdout := t.stdout
    stderr := t.stderr
    error_info := t.error_info }

/-- Embedding of `ProductServer._InputInfo` (lines 298-330): result of the
input-listing step. -/
structure InputInfo where
  script : String
  inputs : List (String × String)
  task : ProcTask
  deriving DecidableEq, Repr

/-- The task fields of a fresh `_InputInfo`: `returncode = 0`
(line 328), captured streams unset, and neither `status` nor
`error_info` declared on the class. -/
def inputTask0 : ProcTask :=
  { returncode := 0, status := none, stdout := none, stderr := none, error_info := none }

/-- The external collaborators of the engine: `exec` is the operating
system running a child process (script path, environment, filesystem in;
exit code, captured streams and filesystem out), `mkReq` abstracts
`nutproduct.ProductInfo` plus path derivation for the construction of a
(possibly recursive) request from a descriptor string. -/
structure Server where
  exec : String → List (String × String) → FileMap → ProcResult × FileMap
  mkReq : String → ReqSpec

/-- The mutable world a request runs in: the filesystem, the log of
process invocations (script path and environment of each
`subprocess.Popen`), and the class counter. -/
structure World where
  fs : FileMap
  calls : List (String × List (String × String))
  counter : Int

/-- Embedding of `ProductServer.get_input_list` (lines 439-473).  No input script is
a valid empty listing.  Otherwise the script is run with the parameter
environment; on exit 0 its stdout is parsed as `name=value` lines ---
but only a truthy captured stdout was decoded to text by `run_process`
(line 422), so on exit 0 with empty output line 465 calls `.split` on
the undecoded empty bytes and raises an uncaught `TypeError`; on a
failed run line 469 reads `input_info.error_info`, which raises
`AttributeError` when `run_process` never assigned it (falsy stdout). -/
def get_input_list (srv : Server) (generator_dir : String)
    (paramEnv : List (String × String)) (w : World) :
    Except String (InputInfo × World) :=
  let script := generator_dir ++ "/" ++ SHELL_INPUT_SCRIPT
  let info0 : InputInfo := { script := script, inputs := [], task := inputTask0 }
  if (w.fs script).isNone then
    .ok (info0, w)                                      -- lines 446-448
  else
    let env := paramEnv                                 -- line 451
    let pres := srv.exec script env w.fs                -- lines 454-459
    let w1 : World := { w with fs := pres.2, calls := w.calls ++ [(script, env)] }
    match run_process (some pres.1) info0.task with     -- line 461
    | .error e => .error e
    | .ok t =>
        if t.returncode == 0 then                       -- lines 463-466
          if truthy t.stdout then
            let parsed := read_conf_text (pySplit '\n' (t.stdout.getD ""))
            .ok ({ info0 with task := t, inputs := parsed }, w1)
          else
            .error "TypeError"                          -- line 465, undecoded empty bytes
        else
          match t.error_info with                       -- line 469
          | none => .error "AttributeError"
          | some _ => .ok ({ info0 with task := t }, w1)

/-- Embedding of `ProductServer.run_generator` (lines 477-511).  The generator is run
with `stderr=subprocess.STDOUT` (line 496), so the child standard error
is merged into the captured stdout stream and `communicate` returns
`None` for stderr.  On a non-zero exit the truthy captured streams are
persisted next to the artifact path (lines 501-509). -/
def run_generator (srv : Server) (pr : ProductRequest)
    (params : List (String × String)) (w : World) :
    Except String (ProductRequest × World) :=
  let pres := srv.exec pr.generator_path params w.fs    -- lines 493-498
  let res := pres.1
  let w1 : World := { w with fs := pres.2, calls := w.calls ++ [(pr.generator_path, params)] }
  let resM : ProcResult := { res with stderr := none }  -- stderr merged into stdout
  match run_process (some resM) pr.task with            -- line 500
  | .error e => .error e
  | .ok t =>
      let pr1 := pr.withTask t
      if res.returncode != 0 then                       -- lines 501-509
        let fs1 := if truthy pr1.stdout then
            fsWrite w1.fs (pr1.path ++ ".stdout.log") (pr1.stdout.getD "") else w1.fs
        let fs2 := if truthy pr1.stderr then
            fsWrite fs1 (pr1.path ++ ".stderr.log") (pr1.stderr.getD "") else fs1
        .ok (pr1, { w1 with fs := fs2 })
      else .ok (pr1, w1)

/-- The input loop of `handle_request` (lines 590-603): each listed
input is resolved sequentially, in listing order, by a recursive MAKE
request (`rec` is `make_request` at the remaining recursion depth); an
input whose request comes back without a path (falsy `r.path`) is
skipped, one with a path is kept as name to path. -/
def resolve_inputs (rec : String → World → Except String (ProductRequest × World)) :
    List (String × String) → World → Except String (List (String × String) × World)
  | [], w => .ok ([], w)
  | (i, d) :: rest, w =>
      match rec d w with                                -- line 596
      | .error e => .error e
      | .ok (r, w1) =>
          match resolve_inputs rec rest w1 with
          | .error e => .error e
          | .ok (tail, w2) =>
              .ok ((if r.path ≠ "" then [(i, r.path)] else []) ++ tail, w2)

/-- The directive block of `handle_request` (lines 625-644), applied
after a successful publication: LINK and LATEST symlinks and the LOG /
DEBUG log file.  Every failure inside it is caught (lines 635-636 and
643-644), so it only transforms the filesystem; the log file is written
only when the captured stdout is truthy (`write_text` on `None` or on
the raw empty bytes raises and is swallowed). -/
def apply_directives (pr : ProductRequest) (w : World) : World :=
  let w := if pr.directives.contains "LINK" then
      { w with fs := symlink w.fs pr.path_static pr.path } else w
  let w := if pr.directives.contains "LATEST" then
      { w with fs := symlink w.fs pr.path_latest pr.path } else w
  if (pr.directives.contains "DEBUG" || pr.directives.contains "LOG") && truthy pr.stdout then
    { w with fs := fsWrite w.fs (pr.path ++ ".log") (pr.stdout.getD "") }
  else w

/-- The MAIN block of `handle_request` (lines 608-646): run the
generator; on non-zero exit return (the placeholder is left in place);
`pr.path_tmp.stat()` on a missing temp file raises `FileNotFoundError`
(line 617); an empty temp file is a failed generation; otherwise the
temp file is atomically moved onto the final path, the status is OK and
the directives are applied. -/
def generate_and_publish (srv : Server) (pr : ProductRequest)
    (params : List (String × String)) (w : World) :
    Except String (ProductRequest × World) :=
  match run_generator srv pr params w with              -- line 611
  | .error e => .error e
  | .ok (pr1, w1) =>
      if pr1.returncode != 0 then .ok (pr1, w1)         -- lines 613-615
      else
        match w1.fs pr1.path_tmp with
        | none => .error "FileNotFoundError"            -- line 617, stat on missing file
        | some c =>
            if c.length == 0 then .ok (pr1, w1)         -- lines 617-619
            else
              let w2 := { w1 with fs := fsMove w1.fs pr1.path_tmp pr1.path }  -- line 622
              let pr2 := { pr1 with status := 200 }     -- line 623
              .ok (pr2, apply_directives pr2 w2)

/-- Lines 588-646 of `handle_request`: under MAKE, resolve the listed
inputs recursively, merge the successful ones into the environment as
name to path plus the comma-joined `INPUTKEYS`, and run the generator. -/
def inputs_and_generate (srv : Server)
    (rec : String → World → Except String (ProductRequest × World))
    (pr : ProductRequest) (params0 : List (String × String)) (w : World) :
    Except String (ProductRequest × World) :=
  if pr.actions.contains "MAKE" then
    match resolve_inputs rec pr.inputs w with
    | .error e => .error e
    | .ok (ins, w1) =>
        let pr1 := { pr with inputs := ins }            -- line 603
        let params1 := dictUpdate
          (dictSet params0 "INPUTKEYS" (String.intercalate "," (ins.map Prod.fst)))
          ins                                           -- lines 605-606
        generate_and_publish srv pr1 params1 w1
  else .ok (pr, w)

/-- Lines 550-646 of `handle_request`, after the cache block: generator
existence check (`NOT_IMPLEMENTED` with a cleared path when absent,
lines 552-559), environment and placeholder preparation under MAKE
(lines 562-574), the input-listing step under MAKE or INPUTS with its
CONFLICT-and-unlink failure exit (lines 576-586; `pr.path.unlink()` on a
missing file raises `FileNotFoundError`), then inputs and generation. -/
def handle_request_rest (srv : Server)
    (rec : String → World → Except String (ProductRequest × World))
    (pr : ProductRequest) (w : World) :
    Except String (ProductRequest × World) :=
  if (w.fs pr.generator_path).isNone then
    .ok ({ pr with path := "", status := 501 }, w)      -- lines 555-559
  else
    let params0 : List (String × String) :=
      if pr.actions.contains "MAKE" then
        dictSet (dictSet pr.paramEnv "OUTDIR" (parentDir pr.path_tmp))
          "OUTFILE" (baseName pr.path)                  -- lines 570-572
      else []                                           -- line 563
    let w1 := if pr.actions.contains "MAKE" then
        { w with fs := fsTouch w.fs pr.path } else w    -- line 574
    if pr.actions.contains "MAKE" || pr.actions.contains "INPUTS" then
      match get_input_list srv pr.generator_dir pr.paramEnv w1 with  -- line 578
      | .error e => .error e
      | .ok (info, w2) =>
          if info.task.returncode == 0 then
            inputs_and_generate srv rec { pr with inputs := info.inputs } params0 w2
          else
            let pr1 := { pr with status := 409 }        -- line 583
            match w2.fs pr1.path with
            | none => .error "FileNotFoundError"        -- line 585, unlink on missing file
            | some _ => .ok (pr1, { w2 with fs := fsUnlink w2.fs pr1.path })
    else
      inputs_and_generate srv rec pr params0 w1

/-- Embedding of `ProductServer.handle_request` (lines 524-646) minus the recursion:
the cache block (lines 531-548).  DELETE on an existing file unlinks it,
sets ACCEPTED and --- there being no `return` in that branch --- falls
through to the rest; MAKE on an existing file is a cache HIT (status OK,
product set to the path) when the size is positive and BUSY (status
ACCEPTED, empty product) on a zero-size placeholder, both returning
immediately; any other action set falls through. -/
def handle_request_core (srv : Server)
    (rec : String → World → Except String (ProductRequest × World))
    (pr : ProductRequest) (w : World) :
    Except String (ProductRequest × World) :=
  if (w.fs pr.path).isSome then
    if pr.actions.contains "DELETE" then
      handle_request_rest srv rec { pr with status := 202 }
        { w with fs := fsUnlink w.fs pr.path }          -- lines 534-536, no return
    else if pr.actions.contains "MAKE" then
      if ((w.fs pr.path).getD "").length > 0 then
        .ok ({ pr with product := some pr.path, status := 200 }, w)  -- lines 538-541
      else
        .ok ({ pr with product := some "", status := 202 }, w)       -- lines 542-545
    else
      handle_request_rest srv rec pr w
  else
    handle_request_rest srv rec pr w

/-- Embedding of `ProductServer.handle_request` (lines 524-646) with a recursion-depth
fuel.  The recursive call for an input (line 596) is
`self.make_request(input_prod_info, [MAKE], [], ...)`: a fresh request
built from the descriptor string at one less fuel. -/
def handle_request (srv : Server) : Nat → ProductRequest → World →
    Except String (ProductRequest × World)
  | 0, _, _ => .error "RecursionError"
  | fuel + 1, pr, w =>
      handle_request_core srv
        (fun d w' =>
          let pc := ProductRequest.init (srv.mkReq d) ["MAKE"] [] w'.counter
          handle_request srv fuel pc.1 { w' with counter := pc.2 })
        pr w

/-- Embedding of `ProductServer.make_request` (lines 514-521): build the request
object and handle it. -/
def make_request (srv : Server) (fuel : Nat) (d : String)
    (actions directives : List String) (w : World) :
    Except String (ProductRequest × World) :=
  let pc := ProductRequest.init (srv.mkReq d) actions directives w.counter
  handle_request srv fuel pc.1 { w with counter := pc.2 }

/-- Unfolding of `handle_request` at positive fuel, with the recursive
call named `make_request`. -/
theorem handle_request_succ (srv : Server) (fuel : Nat) (pr : ProductRequest)
    (w : World) :
    handle_request srv (fuel + 1) pr w =
      handle_request_core srv (fun d w' => make_request srv fuel d ["MAKE"] [] w') pr w := rfl

/-- A path differs from its extension by a suffix of positive length. -/
theorem ne_append_suffix (p s : String) (hs : s.length ≠ 0) : p ≠ p ++ s := by
  intro h
  have hlen := congrArg String.length h
  rw [String.length_append] at hlen
  omega

/-- Lemma: `run_process` on a task that has a `status` attribute (every
`ProductRequest` does) never raises and leaves exactly the
`executorStatus` outcome on the task. -/
theorem run_process_request (p : ProcResult) (t : ProcTask) (c : Nat)
    (hst : t.status = some c) :
    run_process (some p) t = .ok
      { returncode := p.returncode
        status := some (executorStatus p c)
        stdout := p.stdout
        stderr := p.stderr
        error_info :=
          if truthy p.stdout && (p.returncode != 0) then
            some (lastLine (p.stdout.getD ""))
          else t.error_info } := by
  unfold run_process executorStatus
  by_cases hcond : (truthy p.stdout && (p.returncode != 0)) = true
  · simp only [hcond, if_true]
    cases hsf : statusFromInfo (lastLine (p.stdout.getD "")) with
    | some n => simp [hsf]
    | none => simp [hsf, hst]
  · have hcond' : (truthy p.stdout && (p.returncode != 0)) = false := by
      revert hcond; cases truthy p.stdout && (p.returncode != 0) <;> simp
    simp [hcond', hst]

/-- Claim C1: for a MAKE request whose final artifact path refers to an
existing file of positive size, `handle_request` returns with the result
artifact set to that path and status OK, leaving the world (filesystem,
process-invocation log, counter) untouched --- so no generator and no
input-listing script is invoked --- and invoking it again yields the
same path and status. -/
theorem c1_cache_hit_idempotence (srv : Server) (fuel : Nat)
    (pr : ProductRequest) (w : World) (c : String)
    (hfs : w.fs pr.path = some c) (hc : 0 < c.length)
    (hmake : "MAKE" ∈ pr.actions)
    (hdel : "DELETE" ∉ pr.actions) :
    ∃ r, handle_request srv (fuel + 1) pr w = .ok (r, w) ∧
      r.product = some pr.path ∧ r.status = 200 ∧
      ∀ r' w', handle_request srv (fuel + 1) pr w = .ok (r', w') →
        handle_request srv (fuel + 1) pr w' = .ok (r', w') := by
  have h1 : handle_request srv (fuel + 1) pr w =
      .ok ({ pr with product := some pr.path, status := 200 }, w) := by
    rw [handle_request_succ]
    simp [handle_request_core, hfs, hdel, hmake, hc]
  refine ⟨_, h1, rfl, rfl, ?_⟩
  intro r' w' h2
  rw [h1] at h2
  have h3 : r' = { pr with product := some pr.path, status := 200 } ∧ w' = w := by
    cases h2; exact ⟨rfl, rfl⟩
  rw [h3.1, h3.2]
  exact h1

def c1spec : ReqSpec :=
  { path := "/cache/p", path_tmp := "/cache/tmp/p", path_static := "/s/p",
    path_latest := "/s/L", generator_dir := "/prod", paramEnv := [] }

def c1srv : Server :=
  { exec := fun _ _ fs => ({ returncode := 0, stdout := none, stderr := none }, fs),
    mkReq := fun _ => c1spec }

def c1pr : ProductRequest := (ProductRequest.init c1spec ["MAKE"] [] 0).1

def c1w : World :=
  { fs := fun q => if q = "/cache/p" then some "data" else none,
    calls := [], counter := 0 }

/-- Witness for claim C1 at a concrete cache hit. -/
theorem c1_cache_hit_idempotence_wit :
    c1w.fs c1pr.path = some "data" ∧ 0 < ("data").length ∧
    "MAKE" ∈ c1pr.actions ∧ "DELETE" ∉ c1pr.actions ∧
    (∃ r, handle_request c1srv 1 c1pr c1w = .ok (r, c1w) ∧
      r.product = some c1pr.path ∧ r.status = 200 ∧
      ∀ r' w', handle_request c1srv 1 c1pr c1w = .ok (r', w') →
        handle_request c1srv 1 c1pr w' = .ok (r', w')) :=
  ⟨by decide, by decide, by decide, by decide,
   c1_cache_hit_idempotence c1srv 0 c1pr c1w "data"
     (by decide) (by decide) (by decide) (by decide)⟩

/-- Claim C2: for a MAKE request whose final artifact path refers to an
existing zero-length placeholder, `handle_request` returns an empty
result artifact and status ACCEPTED (202), leaving the world untouched;
in particular the placeholder is neither modified, overwritten nor
removed and its size is still 0 after the call. -/
theorem c2_busy_non_interference (srv : Server) (fuel : Nat)
    (pr : ProductRequest) (w : World)
    (hfs : w.fs pr.path = some "")
    (hmake : "MAKE" ∈ pr.actions)
    (hdel : "DELETE" ∉ pr.actions) :
    handle_request srv (fuel + 1) pr w =
      .ok ({ pr with product := some "", status := 202 }, w) ∧
    w.fs pr.path = some "" := by
  refine ⟨?_, hfs⟩
  rw [handle_request_succ]
  simp [handle_request_core, hfs, hdel, hmake]

def c2spec : ReqSpec :=
  { path := "/cache/q", path_tmp := "/cache/tmp/q", path_static := "/s/q",
    path_latest := "/s/Lq", generator_dir := "/prod", paramEnv := [] }

def c2srv : Server :=
  { exec := fun _ _ fs => ({ returncode := 0, stdout := none, stderr := none }, fs),
    mkReq := fun _ => c2spec }

def c2pr : ProductRequest := (ProductRequest.init c2spec ["MAKE"] [] 0).1

def c2w : World :=
  { fs := fun q => if q = "/cache/q" then some "" else none,
    calls := [], counter := 0 }

/-- Witness for claim C2 at a concrete zero-length placeholder. -/
theorem c2_busy_non_interference_wit :
    c2w.fs c2pr.path = some "" ∧
    "MAKE" ∈ c2pr.actions ∧ "DELETE" ∉ c2pr.actions ∧
    (handle_request c2srv 1 c2pr c2w =
       .ok ({ c2pr with product := some "", status := 202 }, c2w) ∧
     c2w.fs c2pr.path = some "") :=
  ⟨by decide, by decide, by decide,
   c2_busy_non_interference c2srv 0 c2pr c2w (by decide) (by decide) (by decide)⟩

def c3spec : ReqSpec :=
  { path := "/cache/d", path_tmp := "/cache/tmp/d", path_static := "/s/d",
    path_latest := "/s/Ld", generator_dir := "/prod/d", paramEnv := [] }

def c3srv : Server :=
  { exec := fun _ _ fs => ({ returncode := 0, stdout := none, stderr := none }, fs),
    mkReq := fun _ => c3spec }

def c3pr : ProductRequest := (ProductRequest.init c3spec ["DELETE"] [] 0).1

def c3w : World :=
  { fs := fun q => if q = "/cache/d" then some "data" else none,
    calls := [], counter := 0 }

/-- Counterexample to claim C3: an existing non-empty artifact, action
set exactly DELETE, and no generator script for the product type.  The
file is deleted, but the DELETE branch (lines 533-536) has no `return`,
so execution falls through to the generator check and the returned
status is NOT_IMPLEMENTED (501) with a cleared path --- not the claimed
ACCEPTED (202). -/
theorem c3_delete_counterexample :
    (handle_request c3srv 1 c3pr c3w).map
        (fun rw => (rw.1.status, rw.1.path, rw.2.fs "/cache/d")) =
      .ok (501, "", none) := by rfl

/-- Claim C3 as amended: with DELETE as the action set and an existing
file, `handle_request` deletes the file and sets status ACCEPTED (202),
but it does not return there; the outcome stands only because execution
falls through to the generator check, so it additionally requires the
generator script to exist --- otherwise the status is overwritten with
NOT_IMPLEMENTED (501). -/
theorem c3_delete_amended (srv : Server) (fuel : Nat)
    (pr : ProductRequest) (w : World) (c g : String)
    (hact : pr.actions = ["DELETE"])
    (hfs : w.fs pr.path = some c)
    (hgen : w.fs pr.generator_path = some g)
    (hne : pr.generator_path ≠ pr.path) :
    handle_request srv (fuel + 1) pr w =
      .ok ({ pr with status := 202 }, { w with fs := fsUnlink w.fs pr.path }) ∧
    fsUnlink w.fs pr.path pr.path = none := by
  constructor
  · rw [handle_request_succ]
    simp [handle_request_core, handle_request_rest, inputs_and_generate,
      hact, hfs, fsUnlink, hne, hgen]
  · simp [fsUnlink]

def c3wg : World :=
  { fs := fun q =>
      if q = "/cache/d" then some "data"
      else if q = "/prod/d/generate.sh" then some "script" else none,
    calls := [], counter := 0 }

/-- Witness for the amended claim C3 at a concrete existing artifact
with an existing generator script. -/
theorem c3_delete_amended_wit :
    c3pr.actions = ["DELETE"] ∧
    c3wg.fs c3pr.path = some "data" ∧
    c3wg.fs c3pr.generator_path = some "script" ∧
    c3pr.generator_path ≠ c3pr.path ∧
    (handle_request c3srv 1 c3pr c3wg =
       .ok ({ c3pr with status := 202 }, { c3wg with fs := fsUnlink c3wg.fs c3pr.path }) ∧
     fsUnlink c3wg.fs c3pr.path c3pr.path = none) :=
  ⟨by decide, by decide, by decide, by decide,
   c3_delete_amended c3srv 0 c3pr c3wg "data" "script"
     (by decide) (by decide) (by decide) (by decide)⟩

/-- The environment the generator is called with when the resolved input
listing is empty: the parameter environment with `OUTDIR` and `OUTFILE`
(lines 570-572) and an empty `INPUTKEYS` (line 605). -/
def genParams (pr : ProductRequest) : List (String × String) :=
  dictSet (dictSet (dictSet pr.paramEnv "OUTDIR" (parentDir pr.path_tmp))
    "OUTFILE" (baseName pr.path)) "INPUTKEYS" ""

/-- Claim C4: a MAKE request (cache miss, generator present, no input
script) whose generator exits non-zero, or exits zero leaving an empty
temp file, returns terminally with the status the Process Executor
determined (`executorStatus`: the self-reported code of the last output
line, default CONFLICT, or the unchanged prior status when no output was
captured), and the zero-length placeholder created at the final artifact
path is left in place. -/
theorem c4_generation_failure_placeholder (srv : Server) (fuel : Nat)
    (pr : ProductRequest) (w : World) (g : String) (res : ProcResult) (fs2 : FileMap)
    (hmake : "MAKE" ∈ pr.actions) (hdel : "DELETE" ∉ pr.actions)
    (hmiss : w.fs pr.path = none)
    (hgen : w.fs pr.generator_path = some g)
    (hinp : w.fs (pr.generator_dir ++ "/" ++ SHELL_INPUT_SCRIPT) = none)
    (hine : pr.generator_dir ++ "/" ++ SHELL_INPUT_SCRIPT ≠ pr.path)
    (hexec : srv.exec pr.generator_path (genParams pr) (fsTouch w.fs pr.path) = (res, fs2))
    (hpres : fs2 pr.path = some "")
    (hfail : res.returncode ≠ 0 ∨ (res.returncode = 0 ∧ fs2 pr.path_tmp = some "")) :
    (handle_request srv (fuel + 1) pr w).map (fun rw => rw.1.status)
        = .ok (executorStatus res pr.status) ∧
    (handle_request srv (fuel + 1) pr w).map (fun rw => rw.1.returncode)
        = .ok res.returncode ∧
    (handle_request srv (fuel + 1) pr w).map (fun rw => rw.2.fs pr.path)
        = .ok (some "") := by
  have hstep : handle_request srv (fuel + 1) pr w =
      generate_and_publish srv { pr with inputs := [] } (genParams pr)
        { w with fs := fsTouch w.fs pr.path } := by
    rw [handle_request_succ]
    simp [handle_request_core, hmiss, handle_request_rest, hgen, hmake, hdel,
      get_input_list, inputTask0, fsTouch, hinp, hine, inputs_and_generate,
      resolve_inputs, genParams, dictUpdate, String.intercalate]
  have htask : (ProductRequest.task { pr with inputs := ([] : List (String × String)) }).status
      = some pr.status := rfl
  have hrunp := run_process_request { res with stderr := none }
    (ProductRequest.task { pr with inputs := ([] : List (String × String)) }) pr.status htask
  have hlogne : pr.path ≠ pr.path ++ ".stdout.log" :=
    ne_append_suffix pr.path ".stdout.log" (by decide)
  rcases hfail with hrc | ⟨hrc, htmp⟩
  · refine ⟨?_, ?_, ?_⟩ <;>
    · rw [hstep]
      simp only [generate_and_publish, run_generator, hexec]
      rw [hrunp]
      simp [ProductRequest.withTask, executorStatus, hrc, hpres, truthy,
        fsWrite, hlogne, Except.map]
      try (split <;> simp [fsWrite, hlogne, hpres])
  · refine ⟨?_, ?_, ?_⟩ <;>
    · rw [hstep]
      simp only [generate_and_publish, run_generator, hexec]
      rw [hrunp]
      simp [ProductRequest.withTask, executorStatus, hrc, htmp, hpres, truthy, Except.map]

def c4spec : ReqSpec :=
  { path := "/c/p", path_tmp := "/c/tmp/p", path_static := "/s/p",
    path_latest := "/s/L", generator_dir := "/g", paramEnv := [] }

def c4res : ProcResult :=
  { returncode := 1, stdout := some "409 bad input", stderr := none }

def c4srv : Server :=
  { exec := fun s _ fs =>
      if s = "/g/generate.sh" then (c4res, fs)
      else ({ returncode := 0, stdout := none, stderr := none }, fs),
    mkReq := fun _ => c4spec }

def c4pr : ProductRequest := (ProductRequest.init c4spec ["MAKE"] [] 0).1

def c4w : World :=
  { fs := fun q => if q = "/g/generate.sh" then some "script" else none,
    calls := [], counter := 0 }

/-- Witness for claim C4 at a concrete failed generation: the generator
exits 1 with last line `409 bad input`. -/
theorem c4_generation_failure_placeholder_wit :
    "MAKE" ∈ c4pr.actions ∧ "DELETE" ∉ c4pr.actions ∧
    c4w.fs c4pr.path = none ∧
    c4w.fs c4pr.generator_path = some "script" ∧
    c4w.fs (c4pr.generator_dir ++ "/" ++ SHELL_INPUT_SCRIPT) = none ∧
    c4pr.generator_dir ++ "/" ++ SHELL_INPUT_SCRIPT ≠ c4pr.path ∧
    c4srv.exec c4pr.generator_path (genParams c4pr) (fsTouch c4w.fs c4pr.path)
      = (c4res, fsTouch c4w.fs c4pr.path) ∧
    (fsTouch c4w.fs c4pr.path) c4pr.path = some "" ∧
    c4res.returncode ≠ 0 ∧
    ((handle_request c4srv 1 c4pr c4w).map (fun rw => rw.1.status)
        = .ok (executorStatus c4res c4pr.status) ∧
     (handle_request c4srv 1 c4pr c4w).map (fun rw => rw.1.returncode)
        = .ok c4res.returncode ∧
     (handle_request c4srv 1 c4pr c4w).map (fun rw => rw.2.fs c4pr.path)
        = .ok (some "")) :=
  ⟨by decide, by decide, by rfl, by rfl, by rfl, by decide, by rfl, by rfl, by decide,
   c4_generation_failure_placeholder c4srv 0 c4pr c4w "script" c4res
     (fsTouch c4w.fs c4pr.path) (by decide) (by decide) (by rfl) (by rfl) (by rfl)
     (by decide) (by rfl) (by rfl) (Or.inl (by decide))⟩

def c5spec : ReqSpec :=
  { path := "/c/x", path_tmp := "/c/tmp/x", path_static := "/s/x",
    path_latest := "/s/Lx", generator_dir := "/gx", paramEnv := [] }

def c5srv : Server :=
  { exec := fun s _ fs =>
      if s = "/gx/input.sh" then
        ({ returncode := 1, stdout := some "garbage", stderr := none }, fs)
      else ({ returncode := 0, stdout := none, stderr := none }, fs),
    mkReq := fun _ => c5spec }

def c5pr : ProductRequest := (ProductRequest.init c5spec ["MAKE"] [] 0).1

def c5w : World :=
  { fs := fun q =>
      if q = "/gx/generate.sh" then some "script"
      else if q = "/gx/input.sh" then some "script" else none,
    calls := [], counter := 0 }

/-- Counterexample to claim C5: a MAKE request whose input-listing
script exists and exits non-zero, with a last output line that does not
parse as a status code.  Instead of setting CONFLICT, removing the
placeholder and returning, `handle_request` raises: the `ValueError`
handler of `run_process` (line 431) reads `task.status`, an attribute
class `_InputInfo` never declares, so an uncaught `AttributeError`
propagates out of the engine. -/
theorem c5_input_listing_counterexample :
    handle_request c5srv 1 c5pr c5w = .error "AttributeError" := by rfl

/-- Claim C5 as amended: for a request whose action set contains MAKE
(so that the placeholder was just created at the final path), if the
input-listing script exists and exits non-zero *and its last output line
begins with a token naming a valid status code* (so that `run_process`
survives, storing that code on the listing task), then `handle_request`
sets the request status to Conflict (409), unlinks the placeholder file
at the final artifact path, and returns terminally without attempting
generation --- the only process invoked is the input-listing script.  In
the remaining failure shapes the call raises instead (`AttributeError`
from `run_process` or from line 469, or `FileNotFoundError` from the
unlink for an INPUTS-only request with no file at the final path). -/
theorem c5_input_listing_amended (srv : Server) (fuel : Nat)
    (pr : ProductRequest) (w : World) (g h0 s : String) (cde : Nat)
    (res : ProcResult) (fs2 : FileMap)
    (hmake : "MAKE" ∈ pr.actions) (hdel : "DELETE" ∉ pr.actions)
    (hmiss : w.fs pr.path = none)
    (hgen : w.fs pr.generator_path = some g)
    (hgis : w.fs (pr.generator_dir ++ "/" ++ SHELL_INPUT_SCRIPT) = some h0)
    (hgisne : pr.generator_dir ++ "/" ++ SHELL_INPUT_SCRIPT ≠ pr.path)
    (hexec : srv.exec (pr.generator_dir ++ "/" ++ SHELL_INPUT_SCRIPT) pr.paramEnv
        (fsTouch w.fs pr.path) = (res, fs2))
    (hrc : res.returncode ≠ 0)
    (hout : res.stdout = some s) (hs : s ≠ "")
    (hparse : statusFromInfo (lastLine s) = some cde)
    (hpres : fs2 pr.path = some "") :
    handle_request srv (fuel + 1) pr w =
      .ok ({ pr with status := 409 },
           { fs := fsUnlink fs2 pr.path,
             calls := w.calls ++ [(pr.generator_dir ++ "/" ++ SHELL_INPUT_SCRIPT, pr.paramEnv)],
             counter := w.counter }) ∧
    fsUnlink fs2 pr.path pr.path = none := by
  have hsd : s.data ≠ [] := by
    intro hnil
    apply hs
    cases s with
    | mk d =>
      simp only at hnil
      rw [hnil]
  constructor
  · rw [handle_request_succ]
    simp only [handle_request_core, hmiss]
    simp only [Option.isSome_none, Bool.false_eq_true, if_false]
    simp [handle_request_rest, hgen, hmake, hdel, get_input_list, fsTouch,
      hgis, hgisne, hexec, run_process, inputTask0, truthy, hout, hsd,
      hrc, hparse, hpres, fsUnlink]
  · simp [fsUnlink]

def c5wres : ProcResult :=
  { returncode := 1, stdout := some "409 oops", stderr := none }

def c5wsrv : Server :=
  { exec := fun s _ fs =>
      if s = "/gx/input.sh" then (c5wres, fs)
      else ({ returncode := 0, stdout := none, stderr := none }, fs),
    mkReq := fun _ => c5spec }

/-- Witness for the amended claim C5 at a concrete MAKE request whose
input-listing script fails with a last line naming status 409. -/
theorem c5_input_listing_amended_wit :
    "MAKE" ∈ c5pr.actions ∧ "DELETE" ∉ c5pr.actions ∧
    c5w.fs c5pr.path = none ∧
    c5w.fs c5pr.generator_path = some "script" ∧
    c5w.fs (c5pr.generator_dir ++ "/" ++ SHELL_INPUT_SCRIPT) = some "script" ∧
    c5pr.generator_dir ++ "/" ++ SHELL_INPUT_SCRIPT ≠ c5pr.path ∧
    c5wsrv.exec (c5pr.generator_dir ++ "/" ++ SHELL_INPUT_SCRIPT) c5pr.paramEnv
      (fsTouch c5w.fs c5pr.path) = (c5wres, fsTouch c5w.fs c5pr.path) ∧
    c5wres.returncode ≠ 0 ∧
    c5wres.stdout = some "409 oops" ∧ "409 oops" ≠ "" ∧
    statusFromInfo (lastLine "409 oops") = some 409 ∧
    (fsTouch c5w.fs c5pr.path) c5pr.path = some "" ∧
    (handle_request c5wsrv 1 c5pr c5w =
       .ok ({ c5pr with status := 409 },
            { fs := fsUnlink (fsTouch c5w.fs c5pr.path) c5pr.path,
              calls := c5w.calls ++ [(c5pr.generator_dir ++ "/" ++ SHELL_INPUT_SCRIPT, c5pr.paramEnv)],
              counter := c5w.counter }) ∧
     fsUnlink (fsTouch c5w.fs c5pr.path) c5pr.path c5pr.path = none) :=
  ⟨by decide, by decide, by rfl, by rfl, by rfl, by decide, by rfl, by decide,
   by rfl, by decide, by rfl, by rfl,
   c5_input_listing_amended c5wsrv 0 c5pr c5w "script" "script" "409 oops" 409
     c5wres (fsTouch c5w.fs c5pr.path) (by decide) (by decide) (by rfl) (by rfl)
     (by rfl) (by decide) (by rfl) (by decide) (by rfl) (by decide) (by rfl) (by rfl)⟩

/-- A string different from the empty string has a non-empty character
list. -/
theorem data_ne_nil_of_ne_empty (s : String) (hs : s ≠ "") : s.data ≠ [] := by
  intro hnil
  apply hs
  cases s with
  | mk d =>
    simp only at hnil
    rw [hnil]

/-- Claim C7: when a process run by `run_process` on a request task
(one carrying a status) exits non-zero with non-empty captured output,
the last line of that output is inspected; if its first space-separated
token is an integer naming a valid code of the shared HTTP status
taxonomy, the task status is set to that code, and otherwise to the
default CONFLICT (409). -/
theorem c7_status_from_last_line (p : ProcResult) (t : ProcTask) (c : Nat) (s : String)
    (hst : t.status = some c) (hrc : p.returncode ≠ 0)
    (hout : p.stdout = some s) (hs : s ≠ "") :
    ∃ t', run_process (some p) t = .ok t' ∧
      t'.status = some ((statusFromInfo (lastLine s)).getD 409) ∧
      (∀ n, pyInt (firstToken (lastLine s)) = some n → isHTTPStatusCode n = true →
        t'.status = some n.toNat) ∧
      ((∀ n, pyInt (firstToken (lastLine s)) = some n → isHTTPStatusCode n = false) →
        t'.status = some 409) ∧
      (pyInt (firstToken (lastLine s)) = none → t'.status = some 409) := by
  have hsd : s.data ≠ [] := data_ne_nil_of_ne_empty s hs
  have h1 := run_process_request p t c hst
  refine ⟨_, h1, ?_, ?_, ?_, ?_⟩
  · simp [executorStatus, truthy, hout, hsd, hrc]
  · intro n hn hv
    simp [executorStatus, truthy, hout, hsd, hrc, statusFromInfo, hn, hv]
  · intro hall
    cases hpi : pyInt (firstToken (lastLine s)) with
    | none => simp [executorStatus, truthy, hout, hsd, hrc, statusFromInfo, hpi]
    | some n =>
        have hv := hall n hpi
        simp [executorStatus, truthy, hout, hsd, hrc, statusFromInfo, hpi, hv]
  · intro hpi
    simp [executorStatus, truthy, hout, hsd, hrc, statusFromInfo, hpi]

def c7p : ProcResult :=
  { returncode := 1, stdout := some "409 bad input", stderr := some "x" }

def c7t : ProcTask :=
  { returncode := -1, status := some 204, stdout := none, stderr := none,
    error_info := none }

/-- Witness for claim C7 at a concrete failed run whose last output line
is `409 bad input`. -/
theorem c7_status_from_last_line_wit :
    c7t.status = some 204 ∧ c7p.returncode ≠ 0 ∧
    c7p.stdout = some "409 bad input" ∧ "409 bad input" ≠ "" ∧
    (∃ t', run_process (some c7p) c7t = .ok t' ∧
      t'.status = some ((statusFromInfo (lastLine "409 bad input")).getD 409) ∧
      (∀ n, pyInt (firstToken (lastLine "409 bad input")) = some n →
        isHTTPStatusCode n = true → t'.status = some n.toNat) ∧
      ((∀ n, pyInt (firstToken (lastLine "409 bad input")) = some n →
        isHTTPStatusCode n = false) → t'.status = some 409) ∧
      (pyInt (firstToken (lastLine "409 bad input")) = none → t'.status = some 409)) :=
  ⟨by rfl, by decide, by rfl, by decide,
   c7_status_from_last_line c7p c7t 204 "409 bad input"
     (by rfl) (by decide) (by rfl) (by decide)⟩

/-- Appending different suffixes to the same string gives different
strings. -/
theorem append_right_ne (p a b : String) (hab : a ≠ b) : p ++ a ≠ p ++ b := by
  intro h
  apply hab
  have hd := congrArg String.data h
  simp only [String.data_append] at hd
  exact String.ext (List.append_cancel_left hd)

def c8spec : ReqSpec :=
  { path := "/c8/p", path_tmp := "/c8/tmp/p", path_static := "/s8/p",
    path_latest := "/s8/L", generator_dir := "/g8", paramEnv := [] }

def c8res : ProcResult :=
  { returncode := 1, stdout := some "409 bad input", stderr := none }

def c8srv : Server :=
  { exec := fun s _ fs =>
      if s = "/g8/generate.sh" then (c8res, fs)
      else ({ returncode := 0, stdout := none, stderr := none }, fs),
    mkReq := fun _ => c8spec }

def c8pr : ProductRequest := (ProductRequest.init c8spec ["MAKE"] [] 0).1

def c8w : World :=
  { fs := fun q => if q = "/g8/generate.sh" then some "script" else none,
    calls := [], counter := 0 }

/-- Counterexample to claim C8: a MAKE request whose generator exits 1
with combined output `409 bad input`.  The generator runs with
`stderr=subprocess.STDOUT` (line 496), so `communicate` returns `None`
for stderr, the guard at line 506 is falsy and no `.stderr.log` file is
ever written: after the failure `.stdout.log` exists but `.stderr.log`
does not, contradicting that both log files exist. -/
theorem c8_stderr_log_counterexample :
    (handle_request c8srv 1 c8pr c8w).map
        (fun rw => (rw.2.fs "/c8/p.stdout.log", rw.2.fs "/c8/p.stderr.log")) =
      .ok (some "409 bad input", none) := by rfl

/-- Claim C8 as amended: when the generator exits non-zero with
non-empty captured output, the full combined output (the child stderr is
merged into stdout by `stderr=subprocess.STDOUT`) is persisted to
`<finalPath>.stdout.log`; the captured stderr of the request is `None`,
so no `<finalPath>.stderr.log` is written --- that path keeps whatever
the filesystem had there after the generator ran. -/
theorem c8_failure_logs_amended (srv : Server) (pr : ProductRequest)
    (params : List (String × String)) (w : World)
    (res : ProcResult) (fs2 : FileMap) (s : String)
    (hexec : srv.exec pr.generator_path params w.fs = (res, fs2))
    (hrc : res.returncode ≠ 0)
    (hout : res.stdout = some s) (hs : s ≠ "") :
    (run_generator srv pr params w).map (fun rw => rw.2.fs (pr.path ++ ".stdout.log"))
        = .ok (some s) ∧
    (run_generator srv pr params w).map (fun rw => rw.1.stderr) = .ok none ∧
    (run_generator srv pr params w).map (fun rw => rw.2.fs (pr.path ++ ".stderr.log"))
        = .ok (fs2 (pr.path ++ ".stderr.log")) := by
  have hsd : s.data ≠ [] := data_ne_nil_of_ne_empty s hs
  have hlogne : pr.path ++ ".stderr.log" ≠ pr.path ++ ".stdout.log" :=
    append_right_ne pr.path ".stderr.log" ".stdout.log" (by decide)
  have htask : (ProductRequest.task pr).status = some pr.status := rfl
  have hrunp := run_process_request { res with stderr := none }
    (ProductRequest.task pr) pr.status htask
  refine ⟨?_, ?_, ?_⟩ <;>
  · simp only [run_generator, hexec]
    rw [hrunp]
    simp [ProductRequest.withTask, truthy, hout, hsd, hrc, fsWrite, hlogne,
      Except.map]

/-- Witness for the amended claim C8 at a concrete failed generator
run. -/
theorem c8_failure_logs_amended_wit :
    c8srv.exec c8pr.generator_path [] c8w.fs = (c8res, c8w.fs) ∧
    c8res.returncode ≠ 0 ∧
    c8res.stdout = some "409 bad input" ∧ "409 bad input" ≠ "" ∧
    ((run_generator c8srv c8pr [] c8w).map
        (fun rw => rw.2.fs (c8pr.path ++ ".stdout.log")) = .ok (some "409 bad input") ∧
     (run_generator c8srv c8pr [] c8w).map (fun rw => rw.1.stderr) = .ok none ∧
     (run_generator c8srv c8pr [] c8w).map
        (fun rw => rw.2.fs (c8pr.path ++ ".stderr.log"))
          = .ok (c8w.fs (c8pr.path ++ ".stderr.log"))) :=
  ⟨by rfl, by decide, by rfl, by decide,
   c8_failure_logs_amended c8srv c8pr [] c8w c8res c8w.fs "409 bad input"
     (by rfl) (by decide) (by rfl) (by decide)⟩

def c9spec : ReqSpec :=
  { path := "/c9/p", path_tmp := "/c9/tmp/p", path_static := "/s9/p",
    path_latest := "/s9/L", generator_dir := "/g9", paramEnv := [] }

def c9srv : Server :=
  { exec := fun s _ fs =>
      if s = "/g9/input.sh" then
        ({ returncode := 1, stdout := some "409 oops", stderr := none }, fs)
      else ({ returncode := 0, stdout := none, stderr := none }, fs),
    mkReq := fun _ => c9spec }

def c9pr : ProductRequest := (ProductRequest.init c9spec ["INPUTS"] [] 0).1

def c9w : World :=
  { fs := fun q =>
      if q = "/g9/generate.sh" then some "script"
      else if q = "/g9/input.sh" then some "script" else none,
    calls := [], counter := 0 }

/-- Counterexample to claim C9: an INPUTS-only request with no file at
the final artifact path whose input-listing script fails.  Line 585
calls `pr.path.unlink()` on a path that does not exist (no placeholder
was created, since MAKE is not in the action set), so `handle_request`
raises an uncaught `FileNotFoundError` instead of returning the request
object. -/
theorem c9_uncaught_exception_counterexample :
    handle_request c9srv 1 c9pr c9w = .error "FileNotFoundError" := by rfl

/-- The error classes that can escape the engine. -/
def EngineErr (e : String) : Prop :=
  e = "RecursionError" ∨ e = "FileNotFoundError" ∨ e = "AttributeError" ∨
    e = "TypeError"

theorem run_process_err (p : Option ProcResult) (t : ProcTask) (e : String)
    (h : run_process p t = .error e) : e = "AttributeError" := by
  unfold run_process at h
  cases p with
  | none => simp at h
  | some p =>
    by_cases hc : (truthy p.stdout && (p.returncode != 0)) = true
    · simp only [hc, if_true] at h
      cases hsf : statusFromInfo (lastLine (p.stdout.getD "")) with
      | some n => rw [hsf] at h; simp at h
      | none =>
        rw [hsf] at h
        cases hts : t.status with
        | none => simp [hts] at h; exact h.symm
        | some c => simp [hts] at h
    · simp only [Bool.not_eq_true] at hc
      simp [hc] at h

theorem get_input_list_err (srv : Server) (gd : String)
    (pe : List (String × String)) (w : World) (e : String)
    (h : get_input_list srv gd pe w = .error e) :
    e = "AttributeError" ∨ e = "TypeError" := by
  unfold get_input_list at h
  dsimp only [] at h
  split at h
  · simp at h
  · split at h
    · rename_i e1 heq
      cases h
      exact Or.inl (run_process_err _ _ _ heq)
    · rename_i t heq
      split at h
      · split at h
        · simp at h
        · cases h; exact Or.inr rfl
      · split at h
        · cases h; exact Or.inl rfl
        · simp at h

theorem resolve_inputs_err (rec : String → World → Except String (ProductRequest × World))
    (hrec : ∀ d w e, rec d w = .error e → EngineErr e) :
    ∀ (l : List (String × String)) (w : World) (e : String),
      resolve_inputs rec l w = .error e → EngineErr e := by
  intro l
  induction l with
  | nil => intro w e h; simp [resolve_inputs] at h
  | cons hd tl ih =>
    intro w e h
    obtain ⟨i, d⟩ := hd
    unfold resolve_inputs at h
    split at h
    · rename_i e1 heq; cases h; exact hrec _ _ _ heq
    · rename_i r w1 heq
      split at h
      · rename_i e2 heq2; cases h; exact ih _ _ heq2
      · simp at h

theorem run_generator_err (srv : Server) (pr : ProductRequest)
    (params : List (String × String)) (w : World) (e : String)
    (h : run_generator srv pr params w = .error e) : e = "AttributeError" := by
  unfold run_generator at h
  dsimp only [] at h
  split at h
  · rename_i e1 heq; cases h; exact run_process_err _ _ _ heq
  · split at h <;> simp at h

theorem generate_and_publish_err (srv : Server) (pr : ProductRequest)
    (params : List (String × String)) (w : World) (e : String)
    (h : generate_and_publish srv pr params w = .error e) : EngineErr e := by
  unfold generate_and_publish at h
  split at h
  · rename_i e1 heq; cases h
    exact Or.inr (Or.inr (Or.inl (run_generator_err _ _ _ _ _ heq)))
  · rename_i pr1 w1 heq
    split at h
    · simp at h
    · split at h
      · cases h; exact Or.inr (Or.inl rfl)
      · rename_i c heq2
        split at h
        · simp at h
        · dsimp only [] at h; simp at h

theorem inputs_and_generate_err (srv : Server)
    (rec : String → World → Except String (ProductRequest × World))
    (hrec : ∀ d w e, rec d w = .error e → EngineErr e)
    (pr : ProductRequest) (params0 : List (String × String)) (w : World) (e : String)
    (h : inputs_and_generate srv rec pr params0 w = .error e) : EngineErr e := by
  unfold inputs_and_generate at h
  split at h
  · split at h
    · rename_i e1 heq; cases h; exact resolve_inputs_err rec hrec _ _ _ heq
    · rename_i ins w1 heq
      dsimp only [] at h
      exact generate_and_publish_err _ _ _ _ _ h
  · simp at h

theorem handle_request_rest_err (srv : Server)
    (rec : String → World → Except String (ProductRequest × World))
    (hrec : ∀ d w e, rec d w = .error e → EngineErr e)
    (pr : ProductRequest) (w : World) (e : String)
    (h : handle_request_rest srv rec pr w = .error e) : EngineErr e := by
  unfold handle_request_rest at h
  split at h
  · simp at h
  · dsimp only [] at h
    split at h
    · split at h
      · rename_i e1 heq; cases h
        rcases get_input_list_err _ _ _ _ _ heq with h1 | h1
        · exact Or.inr (Or.inr (Or.inl h1))
        · exact Or.inr (Or.inr (Or.inr h1))
      · rename_i info w2 heq
        split at h
        · exact inputs_and_generate_err srv rec hrec _ _ _ _ h
        · split at h
          · cases h; exact Or.inr (Or.inl rfl)
          · simp at h
    · exact inputs_and_generate_err srv rec hrec _ _ _ _ h

theorem handle_request_core_err (srv : Server)
    (rec : String → World → Except String (ProductRequest × World))
    (hrec : ∀ d w e, rec d w = .error e → EngineErr e)
    (pr : ProductRequest) (w : World) (e : String)
    (h : handle_request_core srv rec pr w = .error e) : EngineErr e := by
  unfold handle_request_core at h
  split at h
  · split at h
    · exact handle_request_rest_err srv rec hrec _ _ _ h
    · split at h
      · split at h <;> simp at h
      · exact handle_request_rest_err srv rec hrec _ _ _ h
  · exact handle_request_rest_err srv rec hrec _ _ _ h

theorem handle_request_err (srv : Server) :
    ∀ (fuel : Nat) (pr : ProductRequest) (w : World) (e : String),
      handle_request srv fuel pr w = .error e → EngineErr e := by
  intro fuel
  induction fuel with
  | zero =>
    intro pr w e h
    rw [show handle_request srv 0 pr w = Except.error "RecursionError" from rfl] at h
    cases h
    exact Or.inl rfl
  | succ n ih =>
    intro pr w e h
    rw [handle_request_succ] at h
    refine handle_request_core_err srv _ ?_ _ _ _ h
    intro d w' e' h'
    unfold make_request at h'
    exact ih _ _ _ h'

/-- Claim C9 as amended: for every request, `handle_request` either
captures the outcome on the request object and returns it, or raises one
of exactly four uncaught exceptions: `FileNotFoundError` (unlink of a
missing final path at line 585, or stat of a missing temp file at line
617), `AttributeError` (the `run_process` conflict fallback or line 469
reading attributes `_InputInfo` never declares), `TypeError` (line 465
splitting the undecoded empty bytes of a zero-exit input listing with no
output), or `RecursionError` (unbounded recursive input resolution).
No other error escapes the engine. -/
theorem c9_exceptions_amended (srv : Server) (fuel : Nat)
    (pr : ProductRequest) (w : World) :
    (∃ x, handle_request srv fuel pr w = .ok x) ∨
    (∃ e, handle_request srv fuel pr w = .error e ∧
      (e = "RecursionError" ∨ e = "FileNotFoundError" ∨ e = "AttributeError" ∨
        e = "TypeError")) := by
  cases hx : handle_request srv fuel pr w with
  | ok x => exact Or.inl ⟨x, rfl⟩
  | error e => exact Or.inr ⟨e, rfl, handle_request_err srv fuel pr w e hx⟩

/-- The environment of the generator after input resolution (lines
570-572 and 603-606): parameter environment, `OUTDIR`, `OUTFILE`, the
comma-joined `INPUTKEYS` naming the successfully resolved inputs, and
one name-to-path entry per resolved input. -/
def genParamsWith (pr : ProductRequest) (ins : List (String × String)) :
    List (String × String) :=
  dictUpdate
    (dictSet
      (dictSet (dictSet pr.paramEnv "OUTDIR" (parentDir pr.path_tmp))
        "OUTFILE" (baseName pr.path))
      "INPUTKEYS" (String.intercalate "," (ins.map Prod.fst)))
    ins

/-- Unfolding of the input loop on a non-empty listing. -/
theorem resolve_inputs_cons
    (rec : String → World → Except String (ProductRequest × World))
    (i d : String) (rest : List (String × String)) (w : World) :
    resolve_inputs rec ((i, d) :: rest) w =
      match rec d w with
      | .error e => .error e
      | .ok (r, w1) =>
          match resolve_inputs rec rest w1 with
          | .error e => .error e
          | .ok (tail, w2) =>
              .ok ((if r.path ≠ "" then [(i, r.path)] else []) ++ tail, w2) := rfl

/-- Claim C6: for a MAKE request with a resolved input list (the
listing script exits 0 with non-empty captured output --- with empty
output line 465 raises instead, see the C9 bound), inputs are resolved
recursively, sequentially and in listing order (each listed input is handled by a recursive MAKE request
before the rest of the list, with the world threaded through); an input
whose recursive request comes back without an artifact path is omitted
from the final input map while the rest of the list is still processed,
and an input that resolves is kept as name to path; the surviving map
becomes the request inputs and the generator is still invoked, with an
environment carrying exactly the resolved entries and the comma-joined
`INPUTKEYS` of their names. -/
theorem c6_best_effort_inputs (srv : Server) (fuel : Nat)
    (pr : ProductRequest) (w : World) (g h0 sout : String)
    (res : ProcResult) (fs2 : FileMap) (ins : List (String × String)) (w3 : World)
    (hmake : "MAKE" ∈ pr.actions) (hdel : "DELETE" ∉ pr.actions)
    (hmiss : w.fs pr.path = none)
    (hgen : w.fs pr.generator_path = some g)
    (hgis : w.fs (pr.generator_dir ++ "/" ++ SHELL_INPUT_SCRIPT) = some h0)
    (hgisne : pr.generator_dir ++ "/" ++ SHELL_INPUT_SCRIPT ≠ pr.path)
    (hexec : srv.exec (pr.generator_dir ++ "/" ++ SHELL_INPUT_SCRIPT) pr.paramEnv
        (fsTouch w.fs pr.path) = (res, fs2))
    (hrc0 : res.returncode = 0)
    (hout : res.stdout = some sout) (hsout : sout ≠ "")
    (hres : resolve_inputs (fun d w' => make_request srv fuel d ["MAKE"] [] w')
        (read_conf_text (pySplit '\n' sout))
        { fs := fs2,
          calls := w.calls ++ [(pr.generator_dir ++ "/" ++ SHELL_INPUT_SCRIPT, pr.paramEnv)],
          counter := w.counter } = .ok (ins, w3))
    (hgrc : (srv.exec pr.generator_path (genParamsWith pr ins) w3.fs).1.returncode ≠ 0) :
    (∀ i d rest w0 r w1,
        make_request srv fuel d ["MAKE"] [] w0 = .ok (r, w1) → r.path = "" →
        resolve_inputs (fun d' w' => make_request srv fuel d' ["MAKE"] [] w')
            ((i, d) :: rest) w0 =
          resolve_inputs (fun d' w' => make_request srv fuel d' ["MAKE"] [] w') rest w1) ∧
    (∀ i d rest w0 r w1,
        make_request srv fuel d ["MAKE"] [] w0 = .ok (r, w1) → r.path ≠ "" →
        resolve_inputs (fun d' w' => make_request srv fuel d' ["MAKE"] [] w')
            ((i, d) :: rest) w0 =
          (resolve_inputs (fun d' w' => make_request srv fuel d' ["MAKE"] [] w') rest w1).map
            (fun tw => ((i, r.path) :: tw.1, tw.2))) ∧
    (handle_request srv (fuel + 1) pr w).map (fun rw => rw.1.inputs) = .ok ins ∧
    (handle_request srv (fuel + 1) pr w).map (fun rw => rw.2.calls)
      = .ok (w3.calls ++ [(pr.generator_path, genParamsWith pr ins)]) := by
  have hsoutd : sout.data ≠ [] := data_ne_nil_of_ne_empty sout hsout
  have hstep : handle_request srv (fuel + 1) pr w =
      generate_and_publish srv { pr with inputs := ins } (genParamsWith pr ins) w3 := by
    rw [handle_request_succ]
    simp only [handle_request_core, hmiss]
    simp only [Option.isSome_none, Bool.false_eq_true, if_false]
    simp only [handle_request_rest, hgen, Option.isSome_some, Option.isNone_some,
      Bool.false_eq_true, if_false, hmake, hdel]
    simp [get_input_list, fsTouch, hgis, hgisne, hexec, run_process, inputTask0,
      truthy, hrc0, hout, hsoutd, inputs_and_generate, hmake, hres, genParamsWith]
  have htask : (ProductRequest.task { pr with inputs := ins }).status = some pr.status := rfl
  have hrunp := run_process_request
    { (srv.exec pr.generator_path (genParamsWith pr ins) w3.fs).1 with stderr := none }
    (ProductRequest.task { pr with inputs := ins }) pr.status htask
  refine ⟨?_, ?_, ?_, ?_⟩
  · intro i d rest w0 r w1 hmk hpath
    rw [resolve_inputs_cons]
    rw [hmk]
    dsimp only []
    cases hr : resolve_inputs (fun d' w' => make_request srv fuel d' ["MAKE"] [] w') rest w1 with
    | error e => rfl
    | ok tw => simp [hpath]
  · intro i d rest w0 r w1 hmk hpath
    rw [resolve_inputs_cons]
    rw [hmk]
    dsimp only []
    cases hr : resolve_inputs (fun d' w' => make_request srv fuel d' ["MAKE"] [] w') rest w1 with
    | error e => rfl
    | ok tw => simp [hr, hpath, Except.map]
  · rw [hstep]
    simp only [generate_and_publish, run_generator]
    rw [hrunp]
    simp [ProductRequest.withTask, hgrc, Except.map]
  · rw [hstep]
    simp only [generate_and_publish, run_generator]
    rw [hrunp]
    simp [ProductRequest.withTask, hgrc, Except.map]

def c6specP : ReqSpec :=
  { path := "/c/P", path_tmp := "/c/tmp/P", path_static := "/s/P",
    path_latest := "/s/LP", generator_dir := "/g/P", paramEnv := [] }

def c6specA : ReqSpec :=
  { path := "/c/A", path_tmp := "/c/tmp/A", path_static := "/s/A",
    path_latest := "/s/LA", generator_dir := "/g/A", paramEnv := [] }

def c6specB : ReqSpec :=
  { path := "/c/B", path_tmp := "/c/tmp/B", path_static := "/s/B",
    path_latest := "/s/LB", generator_dir := "/g/B", paramEnv := [] }

def c6ires : ProcResult :=
  { returncode := 0, stdout := some "a=da\nb=db", stderr := none }

def c6srv : Server :=
  { exec := fun s _ fs =>
      if s = "/g/P/input.sh" then (c6ires, fs)
      else if s = "/g/P/generate.sh" then
        ({ returncode := 1, stdout := some "409 fail", stderr := none }, fs)
      else ({ returncode := 0, stdout := none, stderr := none }, fs),
    mkReq := fun d => if d = "da" then c6specA else if d = "db" then c6specB else c6specP }

def c6pr : ProductRequest := (ProductRequest.init c6specP ["MAKE"] [] 0).1

def c6w : World :=
  { fs := fun q =>
      if q = "/g/P/generate.sh" then some "x"
      else if q = "/g/P/input.sh" then some "y"
      else if q = "/g/A/generate.sh" then some "x"
      else if q = "/c/A" then some "artifact"
      else none,
    calls := [], counter := 0 }

/-- The world after the input-listing run of the concrete C6 scenario:
the placeholder was touched and the listing invocation logged. -/
def c6w2 : World :=
  { fs := fsTouch c6w.fs c6pr.path,
    calls := c6w.calls ++ [(c6pr.generator_dir ++ "/" ++ SHELL_INPUT_SCRIPT, c6pr.paramEnv)],
    counter := c6w.counter }

/-- Witness for claim C6 at a concrete scenario with two listed inputs:
`a=da` resolves (cache hit at `/c/A`), `b=db` fails (no generator, so
its recursive request returns an empty path); the parent generator is
still invoked with `INPUTKEYS=a` and `a=/c/A` in its environment. -/
theorem c6_best_effort_inputs_wit :
    "MAKE" ∈ c6pr.actions ∧ "DELETE" ∉ c6pr.actions ∧
    c6w.fs c6pr.path = none ∧
    c6w.fs c6pr.generator_path = some "x" ∧
    c6w.fs (c6pr.generator_dir ++ "/" ++ SHELL_INPUT_SCRIPT) = some "y" ∧
    c6pr.generator_dir ++ "/" ++ SHELL_INPUT_SCRIPT ≠ c6pr.path ∧
    c6srv.exec (c6pr.generator_dir ++ "/" ++ SHELL_INPUT_SCRIPT) c6pr.paramEnv
      (fsTouch c6w.fs c6pr.path) = (c6ires, fsTouch c6w.fs c6pr.path) ∧
    c6ires.returncode = 0 ∧
    c6ires.stdout = some "a=da\nb=db" ∧ "a=da\nb=db" ≠ "" ∧
    resolve_inputs (fun d w' => make_request c6srv 1 d ["MAKE"] [] w')
      (read_conf_text (pySplit '\n' "a=da\nb=db")) c6w2 = .ok ([("a", "/c/A")], c6w2) ∧
    (c6srv.exec c6pr.generator_path (genParamsWith c6pr [("a", "/c/A")]) c6w2.fs).1.returncode ≠ 0 ∧
    ((handle_request c6srv 2 c6pr c6w).map (fun rw => rw.1.inputs) = .ok [("a", "/c/A")] ∧
     (handle_request c6srv 2 c6pr c6w).map (fun rw => rw.2.calls)
       = .ok (c6w2.calls ++ [(c6pr.generator_path, genParamsWith c6pr [("a", "/c/A")])])) :=
  ⟨by decide, by decide, by rfl, by rfl, by rfl, by decide, by rfl, by rfl, by rfl,
   by decide, by rfl, by decide,
   ((c6_best_effort_inputs c6srv 1 c6pr c6w "x" "y" "a=da\nb=db" c6ires
      (fsTouch c6w.fs c6pr.path) [("a", "/c/A")] c6w2
      (by decide) (by decide) (by rfl) (by rfl) (by rfl) (by decide) (by rfl)
      (by rfl) (by rfl) (by decide) (by rfl) (by decide)).2.2 : _)⟩

/-- A sequence of `ProductRequest` constructions threading the class
counter through `ProductRequest.__init__`; line 241 is the only place
the source mentions writing `ProductServer.counter`, and `++counter` is
an identity expression, so the counter is only ever read. -/
def buildRequests : List (ReqSpec × List String × List String) → Int →
    List ProductRequest × Int
  | [], c => ([], c)
  | (s, a, d) :: rest, c =>
      let pc := ProductRequest.init s a d c
      let rc := buildRequests rest pc.2
      (pc.1 :: rc.1, rc.2)

/-- Claim C10: over every sequence of `ProductRequest` constructions the
class counter is never incremented --- `(++ProductServer.counter)` at
line 241 is a double unary plus, an identity expression --- so every
request built while the counter holds its initial value 0 is assigned
`sid = 0` and request identifiers are not unique. -/
theorem c10_counter_never_incremented :
    (∀ (l : List (ReqSpec × List String × List String)) (c : Int),
      (buildRequests l c).2 = c ∧ ∀ pr ∈ (buildRequests l c).1, pr.sid = c) ∧
    (∀ l, ∀ pr ∈ (buildRequests l ProductServer.counter).1, pr.sid = 0) := by
  have main : ∀ (l : List (ReqSpec × List String × List String)) (c : Int),
      (buildRequests l c).2 = c ∧ ∀ pr ∈ (buildRequests l c).1, pr.sid = c := by
    intro l
    induction l with
    | nil =>
      intro c
      refine ⟨rfl, ?_⟩
      intro pr h
      simp [buildRequests] at h
    | cons hd tl ih =>
      intro c
      obtain ⟨s, a, d⟩ := hd
      refine ⟨?_, ?_⟩
      · have h1 := (ih c).1
        simpa [buildRequests, ProductRequest.init, plusplus] using h1
      · intro pr h
        simp only [buildRequests, List.mem_cons] at h
        rcases h with h | h
        · subst h; rfl
        · exact (ih c).2 pr h
  refine ⟨main, ?_⟩
  intro l pr h
  have h2 := (main l ProductServer.counter).2 pr h
  simpa [ProductServer.counter] using h2

def c10spec : ReqSpec :=
  { path := "/c/z", path_tmp := "/c/tmp/z", path_static := "/s/z",
    path_latest := "/s/Lz", generator_dir := "/gz", paramEnv := [] }

/-- Witness for claim C10: a one-element construction sequence, once at
an arbitrary counter value 5 (the counter is returned unchanged and the
sid equals it) and once at the initial class counter (sid 0). -/
theorem c10_counter_never_incremented_wit :
    (ProductRequest.init c10spec ["MAKE"] [] 5).1 ∈
      (buildRequests [(c10spec, ["MAKE"], [])] 5).1 ∧
    (ProductRequest.init c10spec ["MAKE"] [] 5).1.sid = 5 ∧
    (ProductRequest.init c10spec ["MAKE"] [] 0).1 ∈
      (buildRequests [(c10spec, ["MAKE"], [])] ProductServer.counter).1 ∧
    (ProductRequest.init c10spec ["MAKE"] [] 0).1.sid = 0 :=
  ⟨by decide,
   (c10_counter_never_incremented.1 [(c10spec, ["MAKE"], [])] 5).2 _ (by decide),
   by decide,
   c10_counter_never_incremented.2 [(c10spec, ["MAKE"], [])] _ (by decide)⟩
